import Mathlib

/-!
Shallow embedding of the `caprini` oscilloscope driver
(`caprini/waveform.py` and `caprini/ds4024_scpi.py`).

Python byte strings are modelled as `List (Fin 256)`, floats as `ℚ`,
dictionaries as insertion-ordered association lists with replace-on-update
semantics, and raised exceptions as `Except PyErr`.  The standard-library
collaborators the code leans on (`base64.b64encode`/`b64decode`, `float`,
`str.split`, `str.strip`) are implemented concretely below so that their
relevant behaviour is part of the model rather than assumed.
-/

namespace Caprini

/-- A Python byte (element of a `bytes` buffer). -/
abbrev Byte := Fin 256

/-- Python exceptions that the modelled code can raise. -/
inductive PyErr where
  | valueError (msg : String)
  | zeroDivisionError
  | nameError (missing : String)
  | keyError (key : String)
  | exception (msg : String)
  | binasciiError
deriving DecidableEq, Repr

deriving instance DecidableEq for Except

/-! ## base64 (models `base64.b64encode` / `base64.b64decode`)

The serialization code stores the raw waveform buffer as
`base64.b64encode(rawbuf).decode('iso8859-1')` and restores it with
`base64.b64decode(d["buf_b64"])`.  We implement standard base64 with `=`
padding over `List Byte` / `List Char`. -/

/-- The standard base64 alphabet, as a list of characters. -/
def b64alphabet : List Char :=
  "ABCDEFGHIJKLMNOPQRSTUVWXYZabcdefghijklmnopqrstuvwxyz0123456789+/".data

/-- Character for a 6-bit group. -/
def b64char (n : Nat) : Char := b64alphabet.getD n '?'

/-- Inverse alphabet lookup. -/
def b64decodeChar (c : Char) : Option (Fin 64) :=
  match b64alphabet.findIdx? (fun a => a = c) with
  | some i => if h : i < 64 then some ⟨i, h⟩ else none
  | none => none

/-- base64 encoding over bytes, producing the character stream. -/
def b64encode : List Byte → List Char
  | [] => []
  | [b0] =>
      [b64char (b0.val / 4), b64char (b0.val % 4 * 16), '=', '=']
  | [b0, b1] =>
      [b64char (b0.val / 4), b64char (b0.val % 4 * 16 + b1.val / 16),
       b64char (b1.val % 16 * 4), '=']
  | b0 :: b1 :: b2 :: rest =>
      b64char (b0.val / 4) :: b64char (b0.val % 4 * 16 + b1.val / 16) ::
      b64char (b1.val % 16 * 4 + b2.val / 64) :: b64char (b2.val % 64) ::
      b64encode rest

/-- base64 decoding of a character stream back to bytes (`none` models a
`binascii.Error`). -/
def b64decode : List Char → Option (List Byte)
  | [] => some []
  | c0 :: c1 :: c2 :: c3 :: rest =>
      if c2 = '=' then
        if c3 = '=' ∧ rest = [] then
          match b64decodeChar c0, b64decodeChar c1 with
          | some d0, some d1 =>
              some [⟨d0.val * 4 + d1.val / 16, by omega⟩]
          | _, _ => none
        else none
      else if c3 = '=' then
        if rest = [] then
          match b64decodeChar c0, b64decodeChar c1, b64decodeChar c2 with
          | some d0, some d1, some d2 =>
              some [⟨d0.val * 4 + d1.val / 16, by omega⟩,
                    ⟨d1.val % 16 * 16 + d2.val / 4, by omega⟩]
          | _, _, _ => none
        else none
      else
        match b64decodeChar c0, b64decodeChar c1, b64decodeChar c2,
              b64decodeChar c3, b64decode rest with
        | some d0, some d1, some d2, some d3, some bs =>
            some (⟨d0.val * 4 + d1.val / 16, by omega⟩ ::
                  ⟨d1.val % 16 * 16 + d2.val / 4, by omega⟩ ::
                  ⟨d2.val % 4 * 64 + d3.val, by omega⟩ :: bs)
        | _, _, _, _, _ => none
  | _ => none

/-! ## Data model (`caprini/waveform.py`) -/

/-- The decoded `:WAVeform:PREamble?` descriptor, a dictionary of ten float
fields in `DS4024_SCPI._parse_preamble`; field order follows the documented
unpacking order there. -/
structure Preamble where
  format : ℚ
  mode : ℚ
  n_points : ℚ
  n_avgs : ℚ
  x_step : ℚ
  x_origin : ℚ
  x_reference : ℚ
  y_step : ℚ
  y_origin : ℚ
  y_reference : ℚ
deriving DecidableEq, Repr

/-- A value in a captured settings dictionary: either a raw reply string or a
nested flat sub-mode mapping (as produced by `_fetch_trigger_settings` /
`_fetch_calc_settings`). -/
inductive SettingVal where
  | str (v : String)
  | map (m : List (String × String))
deriving DecidableEq, Repr

/-- A Python dict of settings, as an insertion-ordered association list. -/
abbrev SettingsMap := List (String × SettingVal)

/-- Assignment `d[k] = v` on an insertion-ordered Python dict: replace in place if the
key exists, else append. -/
def dinsert (m : List (String × α)) (k : String) (v : α) : List (String × α) :=
  if m.any (fun p => decide (p.1 = k)) then
    m.map (fun p => if p.1 = k then (k, v) else p)
  else m ++ [(k, v)]

/-- Lookup `d[k]` on a Python dict (`none` models a `KeyError`). -/
def dlookup (m : List (String × α)) (k : String) : Option α :=
  (m.find? (fun p => decide (p.1 = k))).map Prod.snd

/-- The `Waveform` object: constructor arguments plus the derived fields
computed once in `Waveform.__init__`. -/
structure Waveform where
  version : Int
  preamble : Preamble
  rawbuf : List Byte
  channel_settings : SettingsMap
  idn_line : String
  trigger_settings : SettingsMap
  readings : List Byte
  Fs : ℚ
  t : List ℚ
  y : List ℚ
deriving DecidableEq, Repr

/-- Models `Waveform.__init__`.  Checks `preamble["format"] != 0` (raising
`ValueError`), slices `rawbuf[11:-1]` as unsigned bytes, and derives
`Fs = 1.0/dx` (a float division, raising `ZeroDivisionError` when
`dx == 0`), `t = x0 + dx*arange(n)` and `y = (y0 + readings) * dy`. -/
def Waveform.init (preamble : Preamble) (rawbuf : List Byte)
    (channel_settings : SettingsMap) (idn_line : String)
    (trigger_settings : SettingsMap) (version : Int) :
    Except PyErr Waveform :=
  if preamble.format ≠ 0 then
    .error (.valueError "Unhandled buffer format")
  else
    let readings := (rawbuf.take (rawbuf.length - 1)).drop 11
    let dx := preamble.x_step
    let x0 := preamble.x_origin
    let dy := preamble.y_step
    let y0 := preamble.y_origin - preamble.y_reference
    if dx = 0 then .error .zeroDivisionError
    else
      .ok { version := version, preamble := preamble, rawbuf := rawbuf,
            channel_settings := channel_settings, idn_line := idn_line,
            trigger_settings := trigger_settings, readings := readings,
            Fs := 1 / dx,
            t := (List.range readings.length).map (fun i : ℕ => x0 + dx * (i : ℚ)),
            y := readings.map (fun s => (y0 + (s.val : ℚ)) * dy) }

/-! ## Serialization codec (`Waveform._json_dict` / `Waveform._from_json_dict`)

`json.dumps`/`json.loads` are modelled as the identity on the document
record; the binary-block encoding (`base64`) is modelled concretely above. -/

/-- The JSON document produced by `Waveform._json_dict`. -/
structure WaveformDoc where
  version : Int
  idn_line : String
  channel_settings : SettingsMap
  trigger_settings : SettingsMap
  preamble : Preamble
  buf_b64 : List Char
deriving DecidableEq, Repr

/-- Models `Waveform._json_dict`: every §3 field plus the base64-encoded raw block;
the derived series are not stored. -/
def Waveform.json_dict (w : Waveform) : WaveformDoc :=
  { version := w.version, idn_line := w.idn_line,
    channel_settings := w.channel_settings,
    trigger_settings := w.trigger_settings,
    preamble := w.preamble,
    buf_b64 := b64encode w.rawbuf }

/-- Models `Waveform._from_json_dict`: base64-decode the raw block, then re-run the
`Waveform` constructor on the document's fields. -/
def Waveform.from_json_dict (d : WaveformDoc) : Except PyErr Waveform :=
  match b64decode d.buf_b64 with
  | none => .error .binasciiError
  | some rawbuf =>
      Waveform.init d.preamble rawbuf d.channel_settings d.idn_line
        d.trigger_settings d.version

/-- The `WaveformBundle` object (`waveform.py`). -/
structure WaveformBundle where
  version : Int
  title : String
  channel_names : List (String × String)
  waveforms : List (String × Waveform)
deriving DecidableEq, Repr

/-- The JSON document produced by `WaveformBundle._json_dict`. -/
structure WaveformBundleDoc where
  version : Int
  title : String
  channel_names : List (String × String)
  waveforms : List (String × WaveformDoc)
deriving DecidableEq, Repr

/-- The per-entry loop of `WaveformBundle._from_json_dict`: decode each
embedded waveform document in order, propagating the first failure. -/
def decodeWaveforms : List (String × WaveformDoc) → Except PyErr (List (String × Waveform))
  | [] => .ok []
  | (k, d) :: rest => do
      let w ← Waveform.from_json_dict d
      let ws ← decodeWaveforms rest
      .ok ((k, w) :: ws)

/-- Models `WaveformBundle._from_json_dict`: decode the nested waveforms, then call
the bundle constructor (which stores `version` verbatim). -/
def WaveformBundle.from_json_dict (d : WaveformBundleDoc) : Except PyErr WaveformBundle :=
  match decodeWaveforms d.waveforms with
  | .error e => .error e
  | .ok ws => .ok { version := d.version, title := d.title,
                    channel_names := d.channel_names, waveforms := ws }

/-! ## Python `float()` and `str.split` (collaborators of `_parse_preamble`)

`float()` is modelled on finite decimal literals: optional surrounding
whitespace, optional sign, digits with an optional decimal point, and an
optional `e`/`E` exponent (the special spellings `inf`/`nan` and digit
underscores are outside the model).  `str.split(',')` splits on every comma
and keeps empty fields. -/

/-- Python `s.split(',')`-style splitting on a single separator character. -/
def splitFields (sep : Char) : List Char → List (List Char)
  | [] => [[]]
  | c :: cs =>
      match splitFields sep cs with
      | [] => [[]]
      | f :: rest => if c = sep then [] :: f :: rest else (c :: f) :: rest

/-- Strip leading and trailing whitespace (Python `str.strip()`). -/
def trimChars (cs : List Char) : List Char :=
  ((cs.dropWhile Char.isWhitespace).reverse.dropWhile Char.isWhitespace).reverse

/-- Value of a digit string, most significant first. -/
def digitsToNat (cs : List Char) : Nat :=
  cs.foldl (fun a c => a * 10 + (c.toNat - 48)) 0

/-- A nonempty all-digit string, as a natural number. -/
def parseDigitsNat (cs : List Char) : Option Nat :=
  if cs ≠ [] ∧ cs.all Char.isDigit then some (digitsToNat cs) else none

/-- Mantissa: `digits`, `digits.digits`, `.digits` or `digits.`. -/
def parseMantissaChars (cs : List Char) : Option ℚ :=
  match splitFields '.' cs with
  | [ip] => (parseDigitsNat ip).map (fun n => (n : ℚ))
  | [ip, fp] =>
      if (ip ≠ [] ∨ fp ≠ []) ∧ ip.all Char.isDigit ∧ fp.all Char.isDigit then
        some ((digitsToNat ip : ℚ) + (digitsToNat fp : ℚ) / (10 : ℚ) ^ fp.length)
      else none
  | _ => none

/-- Exponent part: optional sign then digits. -/
def parseExpChars (cs : List Char) : Option Int :=
  match cs with
  | '+' :: rest => (parseDigitsNat rest).map Int.ofNat
  | '-' :: rest => (parseDigitsNat rest).map (fun n => -(n : Int))
  | rest => (parseDigitsNat rest).map Int.ofNat

/-- Scale a mantissa by a (possibly negative) power of ten. -/
def applyExp (m : ℚ) (e : Int) : ℚ :=
  if 0 ≤ e then m * (10 : ℚ) ^ e.toNat else m / (10 : ℚ) ^ (-e).toNat

/-- Unsigned float literal: mantissa with optional exponent. -/
def parseUnsignedChars (cs : List Char) : Option ℚ :=
  match splitFields 'e' cs with
  | [m] => parseMantissaChars m
  | [m, e] =>
      match parseMantissaChars m, parseExpChars e with
      | some mv, some ev => some (applyExp mv ev)
      | _, _ => none
  | _ => none

/-- Python `float(field)` on one preamble field (`none` models the
`ValueError` raised for a non-numeric field). -/
def pyFloat (cs : List Char) : Option ℚ :=
  match (trimChars cs).map Char.toLower with
  | '+' :: rest => parseUnsignedChars rest
  | '-' :: rest => (parseUnsignedChars rest).map Neg.neg
  | rest => parseUnsignedChars rest

/-- Models `map(float, fields)` as consumed by the 10-name tuple unpacking:
the first `ValueError` propagates. -/
def mapFloat : List (List Char) → Option (List ℚ)
  | [] => some []
  | f :: rest =>
      match pyFloat f, mapFloat rest with
      | some v, some vs => some (v :: vs)
      | _, _ => none

/-- Models `DS4024_SCPI._parse_preamble`: split the reply on commas, convert every
field with `float`, and unpack exactly ten values into the preamble
dictionary in documented order.  A wrong field count raises the unpacking
`ValueError`; a non-numeric field raises the `float` `ValueError`. -/
def parse_preamble (s : String) : Except PyErr Preamble :=
  match mapFloat (splitFields ',' s.data) with
  | none => .error (.valueError "could not convert string to float")
  | some [fmt, modeno, n_points, n_avgs, xinc, xorig, xref, yinc, yorig, yref] =>
      .ok { format := fmt, mode := modeno, n_points := n_points, n_avgs := n_avgs,
            x_step := xinc, x_origin := xorig, x_reference := xref,
            y_step := yinc, y_origin := yorig, y_reference := yref }
  | some _ => .error (.valueError "not enough or too many values to unpack")

/-! ## Instrument interface (`caprini/ds4024_scpi.py`)

The VXI transport is modelled as a deterministic reply oracle; every
modelled operation also returns the ordered list of command lines it sent,
so that "issues exactly these queries" claims are statable.  `warnings.warn`
is a no-op on the result except where evaluating its `f`-string raises (see
`fetch_waveform`). -/

/-- The transport session (`vxi11.Instrument`): replies for line queries and
for the raw waveform-block query. -/
structure Instr where
  ask : String → String
  askRaw : String → List Byte

/-- Python `str.strip()`, applied by `_cmd` to each command line. -/
def pyStrip (s : String) : String := String.mk (trimChars s.data)

/-- Models `_cmd(line, RET_LINE)`: strip, send, read one text line.  Returns the
reply and the single-command trace. -/
def cmd_ret_line (inst : Instr) (cmdline : String) : String × List String :=
  (inst.ask (pyStrip cmdline), [pyStrip cmdline])

/-- Models `_cmd(line, RET_NONE)`: strip and send, no reply.  Returns the trace. -/
def cmd_ret_none (_inst : Instr) (cmdline : String) : List String :=
  [pyStrip cmdline]

/-- Models `_cmd(line, RET_WAVEFORM)`: strip, send, read a raw byte block. -/
def cmd_ret_waveform (inst : Instr) (cmdline : String) : List Byte × List String :=
  (inst.askRaw (pyStrip cmdline), [pyStrip cmdline])

/-- Models `DS4024_SCPI._fetch_settings(prefix, settings)`: one `:prefix:s?` line
query per token, collected into a dict; also returns the issued trace. -/
def fetch_settings (inst : Instr) (pfx : String) (settings : List String) :
    List (String × String) × List String :=
  settings.foldl
    (fun acc s =>
      let r := cmd_ret_line inst (":" ++ pfx ++ ":" ++ s ++ "?")
      (dinsert acc.1 s r.1, acc.2 ++ r.2))
    ([], [])

/-- The fixed channel-settings token set of `_fetch_channel_settings`. -/
def channelSettingsList : List String :=
  ["BVOL", "BWL", "COUP", "DISP", "IMP", "INV", "OFFS", "PEND", "PROB",
   "SCAL", "TCAL", "TYPE", "UNIT", "VERN"]

/-- Top-level token set of `_fetch_calc_settings`. -/
def calcTopSettings : List String := ["MODE"]

/-- The `subfam_settings` table of `_fetch_calc_settings`.  In the source
these parameter collections are Python sets, whose iteration order is
unspecified; they are modelled in their written order. -/
def calc_subfam_settings : List (String × List String) :=
  [("ADV", ["EXPR", "INV", "VAR1", "VAR2", "VOFF", "VSC"]),
   ("ADD", ["INV", "SA", "SB", "VOFF", "VSC"]),
   ("DIV", ["INV", "SA", "SB", "VOFF", "VSC"]),
   ("FFT", ["HCEN", "HOFF", "HSC", "HSP", "SOUR", "SPL", "VOFF", "VSC", "VSM", "WIND"]),
   ("LOG", ["ATHR", "BTHR", "INV", "OPER", "SA", "SB", "VOFF", "VSC"]),
   ("MULT", ["INV", "SA", "SB", "VOFF", "VSC"]),
   ("SUB", ["INV", "SA", "SB", "VOFF", "VSC"])]

/-- Models `DS4024_SCPI._fetch_calc_settings`: fetch `MODE`, look the reported
sub-mode up in the table (`KeyError` when absent), fetch its parameter set
under `CALC:<mode>` and store it under the sub-mode key. -/
def fetch_calc_settings (inst : Instr) : Except PyErr SettingsMap × List String :=
  let fs := fetch_settings inst "CALC" calcTopSettings
  match dlookup fs.1 "MODE" with
  | none => (.error (.keyError "MODE"), fs.2)
  | some subfam =>
      match dlookup calc_subfam_settings subfam with
      | none => (.error (.keyError subfam), fs.2)
      | some subSettings =>
          let sub := fetch_settings inst ("CALC:" ++ subfam) subSettings
          (.ok (dinsert (fs.1.map (fun p => (p.1, SettingVal.str p.2))) subfam
              (SettingVal.map sub.1)), fs.2 ++ sub.2)

/-- Models `DS4024_SCPI._fetch_channel_settings(channel)`: `MATH` dispatches to the
calc capture, `FFT` raises before any transport call, and ordinary channels
fetch the fixed 14-token set. -/
def fetch_channel_settings (inst : Instr) (channel : String) :
    Except PyErr SettingsMap × List String :=
  if channel = "MATH" then fetch_calc_settings inst
  else if channel = "FFT" then
    (.error (.exception "FFT Settings capture not yet implemented"), [])
  else
    let fs := fetch_settings inst channel channelSettingsList
    (.ok (fs.1.map (fun p => (p.1, SettingVal.str p.2))), fs.2)

/-- Top-level token set of `_fetch_trigger_settings` (the repeated `STAT`
entries are in the source). -/
def trigTopSettings : List String :=
  ["STAT", "COUP", "HOLD", "MODE", "STAT", "STAT", "SWE", "NREJ"]

/-- The `subfam_settings` table of `_fetch_trigger_settings`. -/
def trig_subfam_settings : List (String × List String) :=
  [("CAN", ["BAUD", "BUS", "FTYP", "LEV", "SOUR", "SPO", "STYP", "WHEN"]),
   ("EDGE", ["LEV", "SLOP", "SOUR"]),
   ("IIC", ["ADDR", "AWID", "CLEV", "DATA", "DIR", "DLEV", "SCL", "SDA", "WHEN"]),
   ("PATT", ["LEV", "PATT", "SOUR"]),
   ("PULS", ["LEV", "LWID", "SOUR", "UWID", "WHEN"]),
   ("RUNT", ["ALEV", "BLEV", "POL", "SOUR", "WHEN", "WLOW", "WUPP"]),
   ("NEDG", ["EDGE", "IDLE", "LEV", "SLOP", "SOUR"]),
   ("RS232", ["BAUD", "BUS", "DATA", "LEV", "PAR", "SOUR", "STOP", "WHEN", "WIDT"]),
   ("SLOP", ["ALEV", "BLEV", "SOUR", "TLOW", "TUPP", "WHEN", "WIND"]),
   ("SPI", ["CLEV", "CS", "DATA", "DLEV", "MODE", "SCL", "SDA", "SLEV", "SLOP",
            "TIM", "WHEN", "WIDT"]),
   ("USB", ["DMIN", "DPL", "MLEV", "PLEV", "SPE", "WHEN"]),
   ("VID", ["LEV", "LINE", "MODE", "POL", "SOUR", "STAN"]),
   ("FLEX", ["BAUD", "LEV", "SOUR", "WHEN"])]

/-- Models `DS4024_SCPI._fetch_trigger_settings`: fetch the fixed top-level set,
read the reported `MODE`, look its parameter set up (`KeyError` for an
unknown sub-mode; sub-modes other than `EDGE` additionally warn), fetch it
under `TRIG:<mode>` and store the sub-mapping under the sub-mode key. -/
def fetch_trigger_settings (inst : Instr) : Except PyErr SettingsMap × List String :=
  let fs := fetch_settings inst "TRIG" trigTopSettings
  match dlookup fs.1 "MODE" with
  | none => (.error (.keyError "MODE"), fs.2)
  | some subfam =>
      match dlookup trig_subfam_settings subfam with
      | none => (.error (.keyError subfam), fs.2)
      | some subSettings =>
          let sub := fetch_settings inst ("TRIG:" ++ subfam) subSettings
          (.ok (dinsert (fs.1.map (fun p => (p.1, SettingVal.str p.2))) subfam
              (SettingVal.map sub.1)), fs.2 ++ sub.2)

/-- Models `DS4024_SCPI.fetch_waveform(channel, trigger_settings)`: select the
channel, fetch and parse the preamble, check the acquisition mode, fetch the
data block, channel settings and identity, and build the `Waveform`.  The
mode-warning branch evaluates `f"Preamble mode {mode} unsupported"`, whose
name `mode` is unbound in the source, so reaching it raises
`NameError: name 'mode' is not defined`. -/
def fetch_waveform (inst : Instr) (channel : String)
    (trigger_settings : Option SettingsMap) : Except PyErr Waveform × List String :=
  let tr0 := cmd_ret_none inst (":WAV:SOUR " ++ channel)
  let pre := cmd_ret_line inst ":WAV:PRE?"
  match parse_preamble pre.1 with
  | .error e => (.error e, tr0 ++ pre.2)
  | .ok preamble =>
      if preamble.mode ≠ 0 then
        (.error (.nameError "mode"), tr0 ++ pre.2)
      else
        let dat := cmd_ret_waveform inst ":WAV:DATA?"
        let cs := fetch_channel_settings inst channel
        match cs.1 with
        | .error e => (.error e, tr0 ++ pre.2 ++ dat.2 ++ cs.2)
        | .ok cset =>
            let idn := cmd_ret_line inst "*IDN?"
            match trigger_settings with
            | some ts =>
                (Waveform.init preamble dat.1 cset idn.1 ts 1,
                 tr0 ++ pre.2 ++ dat.2 ++ cs.2 ++ idn.2)
            | none =>
                let tsr := fetch_trigger_settings inst
                match tsr.1 with
                | .error e => (.error e, tr0 ++ pre.2 ++ dat.2 ++ cs.2 ++ idn.2 ++ tsr.2)
                | .ok ts =>
                    (Waveform.init preamble dat.1 cset idn.1 ts 1,
                     tr0 ++ pre.2 ++ dat.2 ++ cs.2 ++ idn.2 ++ tsr.2)

/-! ## Concrete fixtures shared by several witnesses -/

/-- A well-formed preamble: byte format, normal mode, unit steps. -/
def pC2 : Preamble := ⟨0, 0, 1400, 1, 1, 0, 0, 1, 0, 0⟩

/-- The waveform `Waveform.__init__` builds from `pC2` and 13 zero bytes. -/
def wfC2 : Waveform :=
  { version := 1, preamble := pC2, rawbuf := List.replicate 13 0,
    channel_settings := [], idn_line := "", trigger_settings := [],
    readings := [0], Fs := 1, t := [0], y := [0] }

/-- A preamble with an unsupported (nonzero) format field. -/
def pFmt1 : Preamble := ⟨1, 0, 0, 0, 1, 0, 0, 1, 0, 0⟩

/-- A byte-format preamble whose `x_step` is zero. -/
def pXstep0 : Preamble := ⟨0, 0, 0, 0, 0, 0, 0, 1, 0, 0⟩

/-- A format-0, unit-step preamble used by the version-handling fixtures. -/
def pV : Preamble := ⟨0, 0, 0, 0, 1, 0, 0, 1, 0, 0⟩

/-- A serialized waveform document carrying the unrecognized version 2. -/
def docV2 : WaveformDoc :=
  { version := 2, idn_line := "", channel_settings := [], trigger_settings := [],
    preamble := pV, buf_b64 := [] }

/-- The waveform that decoding `docV2` produces. -/
def wfV2 : Waveform :=
  { version := 2, preamble := pV, rawbuf := [], channel_settings := [], idn_line := "",
    trigger_settings := [], readings := [], Fs := 1, t := [], y := [] }

/-- Oracle whose trigger fetches report `EDGE` mode and whose preamble reply
is a valid normal-mode line. -/
def instEdge : Instr :=
  { ask := fun s => if s = ":TRIG:MODE?" then "EDGE" else "X",
    askRaw := fun _ => [] }

/-- Oracle whose preamble reply reports acquisition mode 1 (averaged). -/
def instMode1 : Instr :=
  { ask := fun s => if s = ":WAV:PRE?" then "0,1,0,0,1,0,0,1,0,0" else "",
    askRaw := fun _ => [] }

/-- The preamble parsed from `instMode1`'s reply. -/
def pMode1 : Preamble := ⟨0, 1, 0, 0, 1, 0, 0, 1, 0, 0⟩

/-! ## Theorems -/

theorem b64decodeChar_b64char : ∀ d : Fin 64, b64decodeChar (b64char d.val) = some d := by
  decide

theorem b64char_ne_pad : ∀ d : Fin 64, b64char d.val ≠ '=' := by
  decide

theorem b64decodeChar_b64char_nat (n : Nat) (h : n < 64) :
    b64decodeChar (b64char n) = some ⟨n, h⟩ :=
  b64decodeChar_b64char ⟨n, h⟩

theorem b64char_ne_pad_nat (n : Nat) (h : n < 64) : b64char n ≠ '=' :=
  b64char_ne_pad ⟨n, h⟩

/-- base64 round-trip: decoding an encoded byte list recovers it exactly. -/
theorem b64decode_b64encode : ∀ bs : List Byte, b64decode (b64encode bs) = some bs
  | [] => rfl
  | [b0] => by
      have h0 := b0.isLt
      simp only [b64encode, b64decode, and_self, if_true]
      rw [b64decodeChar_b64char_nat (b0.val / 4) (by omega),
          b64decodeChar_b64char_nat (b0.val % 4 * 16) (by omega)]
      simp only [Option.some.injEq, List.cons.injEq, Fin.ext_iff, and_true]
      omega
  | [b0, b1] => by
      have h0 := b0.isLt
      have h1 := b1.isLt
      simp only [b64encode, b64decode]
      rw [if_neg (b64char_ne_pad_nat (b1.val % 16 * 4) (by omega))]
      simp only [if_true]
      rw [b64decodeChar_b64char_nat (b0.val / 4) (by omega),
          b64decodeChar_b64char_nat (b0.val % 4 * 16 + b1.val / 16) (by omega),
          b64decodeChar_b64char_nat (b1.val % 16 * 4) (by omega)]
      simp only [Option.some.injEq, List.cons.injEq, Fin.ext_iff, and_true]
      omega
  | b0 :: b1 :: b2 :: rest => by
      have h0 := b0.isLt
      have h1 := b1.isLt
      have h2 := b2.isLt
      have ih := b64decode_b64encode rest
      simp only [b64encode, b64decode]
      rw [if_neg (b64char_ne_pad_nat (b1.val % 16 * 4 + b2.val / 64) (by omega)),
          if_neg (b64char_ne_pad_nat (b2.val % 64) (by omega))]
      rw [b64decodeChar_b64char_nat (b0.val / 4) (by omega),
          b64decodeChar_b64char_nat (b0.val % 4 * 16 + b1.val / 16) (by omega),
          b64decodeChar_b64char_nat (b1.val % 16 * 4 + b2.val / 64) (by omega),
          b64decodeChar_b64char_nat (b2.val % 64) (by omega), ih]
      simp only [Option.some.injEq, List.cons.injEq, Fin.ext_iff, and_true]
      omega

theorem mapFloat_length : ∀ l vals, mapFloat l = some vals → vals.length = l.length
  | [], vals, h => by
      simp only [mapFloat, Option.some.injEq] at h
      subst h
      rfl
  | f :: rest, vals, h => by
      simp only [mapFloat] at h
      cases hf : pyFloat f with
      | none => rw [hf] at h; exact absurd h (by simp)
      | some v =>
          rw [hf] at h
          cases hr : mapFloat rest with
          | none => rw [hr] at h; exact absurd h (by simp)
          | some vs =>
              rw [hr] at h
              simp only [Option.some.injEq] at h
              subst h
              simp [mapFloat_length rest vs hr]

theorem mapFloat_none : ∀ l (f : List Char), f ∈ l → pyFloat f = none → mapFloat l = none
  | [], f, hm, _ => absurd hm (List.not_mem_nil f)
  | g :: rest, f, hm, hf => by
      simp only [mapFloat]
      rcases List.mem_cons.mp hm with h | h
      · subst h
        rw [hf]
      · rw [mapFloat_none rest f h hf]
        cases pyFloat g <;> rfl

/-- Evaluation of the constructor on the `pC2` fixture (13 zero bytes:
header 11 + 1 payload byte + trailer 1). -/
theorem init_pC2_eval :
    Waveform.init pC2 (List.replicate 13 0) [] "" [] 1 = .ok wfC2 := by
  norm_num [Waveform.init, pC2, wfC2, List.take_replicate, List.drop_replicate,
    List.range_succ]

/-! ## Claims about `Waveform.__init__` and the serialization codec -/

/-- C8: for every preamble whose format field is nonzero, Waveform
construction fails with an unsupported-format `ValueError` and returns no
Waveform object. -/
theorem format_nonzero_rejects (p : Preamble) (rb : List Byte) (cs : SettingsMap)
    (idn : String) (ts : SettingsMap) (v : Int) (h : p.format ≠ 0) :
    Waveform.init p rb cs idn ts v = .error (.valueError "Unhandled buffer format") := by
  simp only [Waveform.init, if_pos h]

theorem format_nonzero_rejects_witness :
    Waveform.init pFmt1 [] [] "" [] 1 = .error (.valueError "Unhandled buffer format") :=
  format_nonzero_rejects pFmt1 [] [] "" [] 1 (by decide)

/-- C2 counterexample: a raw block of 13 bytes against a preamble announcing
1400 points (so 13 ≠ 1400 + 12) is NOT rejected: construction succeeds and
returns a Waveform, contradicting the claimed length invariant. -/
theorem length_mismatch_not_rejected_cex :
    ((List.replicate 13 (0 : Byte)).length : ℚ) ≠ pC2.n_points + 12 ∧
    Waveform.init pC2 (List.replicate 13 0) [] "" [] 1 = .ok wfC2 :=
  ⟨by norm_num [pC2], init_pC2_eval⟩

/-- C2 (amended): Waveform construction performs no raw-block length check at
all: for any preamble with `format = 0` and `x_step ≠ 0` and any raw block
whose length disagrees with `n_points` plus the 12 framing bytes,
construction still succeeds. -/
theorem length_mismatch_accepted (p : Preamble) (rb : List Byte) (cs : SettingsMap)
    (idn : String) (ts : SettingsMap) (v : Int)
    (hf : p.format = 0) (hx : p.x_step ≠ 0)
    (_hlen : (rb.length : ℚ) ≠ p.n_points + 12) :
    ∃ w, Waveform.init p rb cs idn ts v = .ok w := by
  simp only [Waveform.init]
  rw [if_neg (by simp [hf]), if_neg hx]
  exact ⟨_, rfl⟩

theorem length_mismatch_accepted_witness :
    ∃ w, Waveform.init pC2 (List.replicate 13 0) [] "" [] 1 = .ok w :=
  length_mismatch_accepted pC2 (List.replicate 13 0) [] "" [] 1
    (by decide) (by decide) (by norm_num [pC2])

/-- C10 counterexample: construction does not succeed for every format-0
preamble and block: with `x_step = 0` the float division `1.0/dx` raises
`ZeroDivisionError`. -/
theorem format0_construction_can_fail_cex :
    pXstep0.format = 0 ∧
    Waveform.init pXstep0 [] [] "" [] 1 = .error .zeroDivisionError :=
  ⟨rfl, by norm_num [Waveform.init, pXstep0]⟩

/-- C10 (amended): for every preamble with `format = 0` and `x_step ≠ 0` and
every raw block of any length `L`, construction succeeds, the derived sample
series has exactly `max (L - 12) 0` entries, and the preamble's `n_points`
field is never consulted: changing it changes none of the derived series. -/
theorem format0_construction_succeeds (p : Preamble) (rb : List Byte) (cs : SettingsMap)
    (idn : String) (ts : SettingsMap) (v : Int)
    (hf : p.format = 0) (hx : p.x_step ≠ 0) :
    ∃ w, Waveform.init p rb cs idn ts v = .ok w ∧
      (w.readings.length : ℤ) = max ((rb.length : ℤ) - 12) 0 ∧
      ∀ np, ∃ w2, Waveform.init { p with n_points := np } rb cs idn ts v = .ok w2 ∧
        w2.readings = w.readings ∧ w2.t = w.t ∧ w2.y = w.y ∧ w2.Fs = w.Fs := by
  simp only [Waveform.init]
  rw [if_neg (by simp [hf]), if_neg hx]
  refine ⟨_, rfl, ?_, ?_⟩
  · simp only [List.length_drop, List.length_take]
    omega
  · intro np
    rw [if_neg (by simp [hf]), if_neg hx]
    exact ⟨_, rfl, rfl, rfl, rfl, rfl⟩

theorem format0_construction_succeeds_witness :
    ∃ w, Waveform.init pC2 (List.replicate 13 0) [] "" [] 1 = .ok w ∧
      (w.readings.length : ℤ) = max (((List.replicate 13 (0 : Byte)).length : ℤ) - 12) 0 ∧
      ∀ np, ∃ w2, Waveform.init { pC2 with n_points := np }
          (List.replicate 13 0) [] "" [] 1 = .ok w2 ∧
        w2.readings = w.readings ∧ w2.t = w.t ∧ w2.y = w.y ∧ w2.Fs = w.Fs :=
  format0_construction_succeeds pC2 (List.replicate 13 0) [] "" [] 1
    (by decide) (by decide)

/-- C5: for every successfully constructed Waveform, the derived sample rate
is `1/x_step`, `t[i] = x_origin + i*x_step` and
`y[i] = (sample[i] + (y_origin - y_reference)) * y_step` for every index of
the derived series, and when the raw block is framing-consistent the series
has exactly `n_points` entries. -/
theorem derived_series_formulas (p : Preamble) (rb : List Byte) (cs : SettingsMap)
    (idn : String) (ts : SettingsMap) (v : Int) (w : Waveform)
    (h : Waveform.init p rb cs idn ts v = .ok w) :
    w.Fs = 1 / p.x_step ∧
    w.t.length = w.readings.length ∧
    w.y.length = w.readings.length ∧
    (∀ i, i < w.readings.length → w.t.getD i 0 = p.x_origin + (i : ℚ) * p.x_step) ∧
    (∀ i, i < w.readings.length →
      w.y.getD i 0 = (((w.readings.getD i 0).val : ℚ) + (p.y_origin - p.y_reference)) * p.y_step) ∧
    (12 ≤ rb.length → (rb.length : ℚ) = p.n_points + 12 →
      (w.readings.length : ℚ) = p.n_points) := by
  simp only [Waveform.init] at h
  split at h
  · simp at h
  next hf =>
    split at h
    · simp at h
    next hx =>
      injection h with h
      subst h
      refine ⟨rfl, by simp only [List.length_map, List.length_range],
        by simp only [List.length_map], ?_, ?_, ?_⟩
      · intro i hi
        simp only at hi ⊢
        rw [List.getD_eq_getElem?_getD, List.getElem?_map, List.getElem?_range hi]
        simp only [Option.map_some', Option.getD_some]
        ring
      · intro i hi
        simp only at hi ⊢
        rw [List.getD_eq_getElem?_getD, List.getElem?_map, List.getElem?_eq_getElem hi,
            List.getD_eq_getElem?_getD, List.getElem?_eq_getElem hi]
        simp only [Option.map_some', Option.getD_some]
        ring
      · intro h12 hq
        have hlen : ((rb.take (rb.length - 1)).drop 11).length = rb.length - 12 := by
          simp only [List.length_drop, List.length_take]
          omega
        simp only [hlen]
        rw [Nat.cast_sub h12]
        push_cast
        linarith

theorem derived_series_formulas_witness :
    wfC2.Fs = 1 / pC2.x_step ∧ wfC2.t.getD 0 0 = pC2.x_origin + (0 : ℚ) * pC2.x_step := by
  obtain ⟨h1, _, _, h4, _, _⟩ :=
    derived_series_formulas pC2 (List.replicate 13 0) [] "" [] 1 wfC2 init_pC2_eval
  exact ⟨h1, h4 0 (by decide)⟩

/-- C1: deserializing the serialization of a constructed Waveform yields it
back exactly: identical version, identity string, channel settings, trigger
settings, preamble and raw block, and (being recomputed by the same
constructor from the same preamble and block) identical derived sample, time
and voltage series. -/
theorem waveform_serdes_roundtrip (p : Preamble) (rb : List Byte) (cs : SettingsMap)
    (idn : String) (ts : SettingsMap) (v : Int) (w : Waveform)
    (h : Waveform.init p rb cs idn ts v = .ok w) :
    Waveform.from_json_dict (Waveform.json_dict w) = .ok w := by
  simp only [Waveform.init] at h
  split at h
  · simp at h
  next hf =>
    split at h
    · simp at h
    next hx =>
      injection h with h
      subst h
      simp only [Waveform.json_dict, Waveform.from_json_dict, b64decode_b64encode]
      simp only [Waveform.init]
      rw [if_neg hf, if_neg hx]

theorem waveform_serdes_roundtrip_witness :
    Waveform.from_json_dict (Waveform.json_dict wfC2) = .ok wfC2 :=
  waveform_serdes_roundtrip pC2 (List.replicate 13 0) [] "" [] 1 wfC2 init_pC2_eval

/-- C4 counterexample: a document whose top-level version is 2 (not a
recognized schema revision) is NOT rejected: deserialization succeeds and
returns a Waveform carrying version 2. -/
theorem unknown_version_accepted_cex :
    docV2.version = 2 ∧ Waveform.from_json_dict docV2 = .ok wfV2 ∧ wfV2.version = 2 := by
  refine ⟨rfl, ?_, rfl⟩
  norm_num [Waveform.from_json_dict, Waveform.init, docV2, pV, wfV2, b64decode]

/-- C4 (amended): deserialization performs no schema-version validation:
any top-level version value is accepted and stored verbatim in the
reconstructed object, for both `Waveform` and `WaveformBundle` documents. -/
theorem version_stored_verbatim (d : WaveformDoc) (rb : List Byte)
    (hb : b64decode d.buf_b64 = some rb) (hf : d.preamble.format = 0)
    (hx : d.preamble.x_step ≠ 0) :
    (∃ w, Waveform.from_json_dict d = .ok w ∧ w.version = d.version) ∧
    (∀ bd : WaveformBundleDoc, ∀ ws, decodeWaveforms bd.waveforms = .ok ws →
      ∃ b, WaveformBundle.from_json_dict bd = .ok b ∧ b.version = bd.version) := by
  constructor
  · simp only [Waveform.from_json_dict, hb]
    simp only [Waveform.init]
    rw [if_neg (by simp [hf]), if_neg hx]
    exact ⟨_, rfl, rfl⟩
  · intro bd ws hws
    simp only [WaveformBundle.from_json_dict, hws]
    exact ⟨_, rfl, rfl⟩

theorem version_stored_verbatim_witness :
    ∃ w, Waveform.from_json_dict docV2 = .ok w ∧ w.version = docV2.version :=
  (version_stored_verbatim docV2 [] rfl (by decide) (by decide)).1

/-- C6: preamble decoding is a total deterministic function: a line whose
comma-split fields all convert with `float` and number exactly ten decodes to
the `Preamble` record in documented field order; a line with a different
field count, or with any non-numeric field, is rejected with a parse
`ValueError`. -/
theorem parse_preamble_spec (s : String) :
    (∀ a b c d e f g h i j,
       mapFloat (splitFields ',' s.data) = some [a, b, c, d, e, f, g, h, i, j] →
       parse_preamble s =
         .ok { format := a, mode := b, n_points := c, n_avgs := d, x_step := e,
               x_origin := f, x_reference := g, y_step := h, y_origin := i,
               y_reference := j }) ∧
    (∀ vals, mapFloat (splitFields ',' s.data) = some vals →
       (splitFields ',' s.data).length ≠ 10 →
       parse_preamble s = .error (.valueError "not enough or too many values to unpack")) ∧
    (∀ f, f ∈ splitFields ',' s.data → pyFloat f = none →
       parse_preamble s = .error (.valueError "could not convert string to float")) := by
  refine ⟨?_, ?_, ?_⟩
  · intro a b c d e f g h i j hm
    simp only [parse_preamble, hm]
  · intro vals hm hlen
    rw [← mapFloat_length _ _ hm] at hlen
    rcases vals with _ | ⟨a, _ | ⟨b, _ | ⟨c, _ | ⟨d, _ | ⟨e, _ | ⟨f, _ | ⟨g, _ |
      ⟨h, _ | ⟨i, _ | ⟨j, _ | ⟨k, rest⟩⟩⟩⟩⟩⟩⟩⟩⟩⟩⟩
    all_goals try exact absurd rfl hlen
    all_goals simp only [parse_preamble, hm]
  · intro f hmem hf
    simp only [parse_preamble, mapFloat_none _ f hmem hf]

/-- C9: requesting channel-settings capture for `"FFT"` raises the
not-implemented error with an empty command trace: it fails before any
transport call is issued. -/
theorem fft_settings_fails_before_transport (inst : Instr) :
    fetch_channel_settings inst "FFT" =
      (.error (.exception "FFT Settings capture not yet implemented"), []) := rfl

set_option maxHeartbeats 2000000 in
/-- C7: when the phase-1 trigger fetch reports sub-mode `EDGE`, the second
phase issues exactly the `LEV`, `SLOP`, `SOUR` queries under the
`TRIG:EDGE` prefix (the full trace is the eight top-level queries followed
by exactly those three), and the resulting sub-mapping is stored under the
key `"EDGE"` in the returned mapping. -/
theorem trigger_edge_dispatch (inst : Instr) (h : inst.ask ":TRIG:MODE?" = "EDGE") :
    (fetch_trigger_settings inst).2 =
      [":TRIG:STAT?", ":TRIG:COUP?", ":TRIG:HOLD?", ":TRIG:MODE?", ":TRIG:STAT?",
       ":TRIG:STAT?", ":TRIG:SWE?", ":TRIG:NREJ?"] ++
      [":TRIG:EDGE:LEV?", ":TRIG:EDGE:SLOP?", ":TRIG:EDGE:SOUR?"] ∧
    ∃ top, (fetch_trigger_settings inst).1 = .ok top ∧
      dlookup top "EDGE" = some (.map
        [("LEV", inst.ask ":TRIG:EDGE:LEV?"),
         ("SLOP", inst.ask ":TRIG:EDGE:SLOP?"),
         ("SOUR", inst.ask ":TRIG:EDGE:SOUR?")]) := by
  have e2 : dlookup (fetch_settings inst "TRIG" trigTopSettings).1 "MODE" = some "EDGE" := by
    rw [← h]; rfl
  have e3 : dlookup trig_subfam_settings "EDGE" = some ["LEV", "SLOP", "SOUR"] := rfl
  simp only [fetch_trigger_settings, e2, e3]
  exact ⟨rfl, _, rfl, rfl⟩

theorem trigger_edge_dispatch_witness :
    (fetch_trigger_settings instEdge).2 =
      [":TRIG:STAT?", ":TRIG:COUP?", ":TRIG:HOLD?", ":TRIG:MODE?", ":TRIG:STAT?",
       ":TRIG:STAT?", ":TRIG:SWE?", ":TRIG:NREJ?"] ++
      [":TRIG:EDGE:LEV?", ":TRIG:EDGE:SLOP?", ":TRIG:EDGE:SOUR?"] ∧
    ∃ top, (fetch_trigger_settings instEdge).1 = .ok top ∧
      dlookup top "EDGE" = some (.map
        [("LEV", instEdge.ask ":TRIG:EDGE:LEV?"),
         ("SLOP", instEdge.ask ":TRIG:EDGE:SLOP?"),
         ("SOUR", instEdge.ask ":TRIG:EDGE:SOUR?")]) :=
  trigger_edge_dispatch instEdge (by decide)

/-- C3 (code bug): when the fetched preamble's mode field is nonzero, the
fetch does not warn and continue; evaluating the warning text
`f"Preamble mode {mode} unsupported"` raises `NameError` (the name `mode`
is unbound in `fetch_waveform`), so the fetch fails and returns no
Waveform. -/
theorem fetch_waveform_mode_nameerror (inst : Instr) (channel : String) (p : Preamble)
    (hp : parse_preamble (inst.ask ":WAV:PRE?") = .ok p) (hm : p.mode ≠ 0) :
    (fetch_waveform inst channel none).1 = .error (.nameError "mode") := by
  have e1 : parse_preamble (cmd_ret_line inst ":WAV:PRE?").1 = .ok p := hp
  simp only [fetch_waveform, e1]
  rw [if_pos hm]

theorem fetch_waveform_mode_nameerror_witness :
    (fetch_waveform instMode1 "CHAN1" none).1 = .error (.nameError "mode") :=
  fetch_waveform_mode_nameerror instMode1 "CHAN1" pMode1 (by decide) (by decide)

theorem parse_preamble_spec_witness :
    parse_preamble "0,1,1400,1,1,0,0,1,5,127" =
      .ok { format := 0, mode := 1, n_points := 1400, n_avgs := 1, x_step := 1,
            x_origin := 0, x_reference := 0, y_step := 1, y_origin := 5,
            y_reference := 127 } :=
  (parse_preamble_spec "0,1,1400,1,1,0,0,1,5,127").1 0 1 1400 1 1 0 0 1 5 127 (by decide)

end Caprini

